import Mathlib

/-!
Shallow embedding of the Virelia marketplace subscription ledger
(src/services/subscriptionService.js, the ExpiryManager in the same
service bundle, and src/routes/subscription.js).

Modelling conventions:
* decimal VV amounts are rationals (ℚ);
* wall-clock instants are integers (milliseconds since the epoch, ℤ);
  the JavaScript `setHours(0,0,0,0)` day floor is modelled as flooring
  to a multiple of 86400000 ms (`Int.ediv` floors for a positive divisor);
* MongoDB collections are lists; `findOne` is `List.find?` (first match),
  `updateOne` updates the first matching element;
* `_id` values generated by MongoDB are modelled by counters in the state;
  MongoDB guarantees `_id` uniqueness, which appears as `Nodup` hypotheses;
* thrown errors / aborted transactions are `Except` errors carrying no
  state (MongoDB `withTransaction` rolls every write back on abort);
* external Discord calls are modelled as emitted events; calls whose
  failure the source catches are driven by explicit failure oracles.
-/

namespace Virelia

/-- Discount types recognised by `calculateFinalPrice` ("percent" / "fixed"). -/
inductive DiscountType : Type
  | percent : DiscountType
  | fixed : DiscountType
deriving DecidableEq, Repr

/-- `plan.discount` object: `{type, value}`. -/
structure Discount : Type where
  dtype : DiscountType
  value : ℚ
deriving DecidableEq, Repr

/-- A plan from plans/subscriptions.json: fields used by the service. -/
structure Plan : Type where
  id : String
  title : String
  price_vv : ℚ
  days : ℕ
  role_id : String
  discount : Option Discount
deriving DecidableEq, Repr

/-- `SubscriptionService.calculateFinalPrice` (services/subscriptionService.js
lines 59-97), scalar result: no discount returns the price; a percent
discount multiplies by `(1 - value / 100)` (not floored); a fixed discount
subtracts and is floored at 0 via `Math.max`. -/
def calculateFinalPrice (plan : Plan) : ℚ :=
  match plan.discount with
  | none => plan.price_vv
  | some d =>
    match d.dtype with
    | DiscountType.percent => plan.price_vv * (1 - d.value / 100)
    | DiscountType.fixed => max 0 (plan.price_vv - d.value)

/-- The object-shaped result of `calculateFinalPrice(plan, true)`:
`{finalPrice, originalPrice, discountAmount}` (formatted strings omitted). -/
structure PriceInfo : Type where
  finalPrice : ℚ
  originalPrice : ℚ
  discountAmount : ℚ
deriving DecidableEq, Repr

/-- `calculateFinalPrice(plan, true)`: `discountAmount` is
`originalPrice - finalPrice` (0 when there is no discount). -/
def calculateFinalPriceInfo (plan : Plan) : PriceInfo :=
  match plan.discount with
  | none =>
    { finalPrice := plan.price_vv, originalPrice := plan.price_vv, discountAmount := 0 }
  | some _ =>
    let fp := calculateFinalPrice plan
    { finalPrice := fp, originalPrice := plan.price_vv,
      discountAmount := plan.price_vv - fp }

/-- Subscription `status` field values written by the service. -/
inductive SubStatus : Type
  | active : SubStatus
  | expired : SubStatus
deriving DecidableEq, Repr

/-- A document of the `subscriptions` collection, fields as written by
`purchaseSubscription` (new purchase, lines 259-276; renewal update,
lines 225-241) and by the expiry/warning sweeps. -/
structure Subscription : Type where
  _id : ℕ
  user_id : String
  plan_id : String
  title : String
  role_id : String
  status : SubStatus
  created_at : ℤ
  started_at : ℤ
  expires_at : ℤ
  updated_at : ℤ
  expired_at : Option ℤ
  duration_days : ℕ
  original_price_vv : ℚ
  paid_price_vv : ℚ
  total_paid_vv : ℚ
  discount_applied : Option Discount
  renewal_count : ℕ
  last_renewed_at : Option ℤ
  last_renewal_plan_id : Option String
  last_renewal_amount : Option ℚ
  warning_sent : Bool
  warning_sent_at : Option ℤ
deriving DecidableEq, Repr

/-- A document of the `transactions` collection
(`transactionData`, lines 298-315). -/
structure TransactionRecord : Type where
  _id : ℕ
  user_id : String
  subscription_id : ℕ
  plan_id : String
  plan_title : String
  amount_vv : ℚ
  final_price_vv : ℚ
  discount_applied : Option Discount
  discount_amount : ℚ
  is_renewal_type : Bool
  created_at : ℤ
  idempotency_key : String
  user_balance_before : ℚ
  user_balance_after : ℚ
  duration_days : ℕ
deriving DecidableEq, Repr

/-- A document of the `users` collection (only the fields the ledger
reads/writes: `_id` and the decimal `vv_balance`). -/
structure User : Type where
  _id : String
  vv_balance : ℚ
  updated_at : ℤ
deriving DecidableEq, Repr

/-- The persistent store: the three collections the purchase engine and
the sweeps touch, plus the `_id` generators (MongoDB generates unique
ids; they are modelled as counters). -/
structure DBState : Type where
  users : List User
  subscriptions : List Subscription
  transactions : List TransactionRecord
  nextSubId : ℕ
  nextTxId : ℕ
deriving DecidableEq, Repr

/-- MongoDB `updateOne` on `subscriptions` filtered by `_id`:
rewrite the first document with the given id. -/
def updateFirstSub (sid : ℕ) (f : Subscription → Subscription) :
    List Subscription → List Subscription
  | [] => []
  | s :: rest =>
    if s._id = sid then f s :: rest else s :: updateFirstSub sid f rest

/-- MongoDB `updateOne` on `users` filtered by `_id`. -/
def updateFirstUser (uid : String) (f : User → User) :
    List User → List User
  | [] => []
  | u :: rest =>
    if u._id = uid then f u :: rest else u :: updateFirstUser uid f rest

/-- `user || 0`-style numeric fallback: JavaScript treats 0 as falsy, so
`a || b` on numbers is `b` when `a = 0`. -/
def jsOrQ (a b : ℚ) : ℚ := if a = 0 then b else a

/-- One day in milliseconds (`24 * 60 * 60 * 1000`). -/
def msPerDay : ℤ := 86400000

/-- Typed failure modes of `purchaseSubscription`. The route
(src/routes/subscription.js lines 98-117) maps them to user-facing
messages by string matching; `duplicateKeyAbort` models the MongoDB
unique-index violation on `transactions.idempotency_key`
(config/mongodb.js creates `{idempotency_key: 1}, {unique: true}`),
which aborts the whole transaction at the insert step. -/
inductive PurchaseError : Type
  | planNotFound : PurchaseError
  | duplicateTransaction : PurchaseError
  | userNotFound : PurchaseError
  | insufficientBalance (current required : ℚ) : PurchaseError
  | duplicateKeyAbort : PurchaseError
deriving DecidableEq, Repr

/-- The `result` object built inside the transaction callback
(lines 321-331). -/
structure PurchaseResult : Type where
  finalPrice : ℚ
  subscription : Subscription
  transaction : TransactionRecord
  isRenewal : Bool
deriving DecidableEq, Repr

/-- The body of `session.withTransaction` in `purchaseSubscription`
(services/subscriptionService.js lines 177-332): load the user, check the
balance, find an active unexpired subscription of the user, extend it or
insert a new one, debit the balance, insert the transaction record.
There is no idempotency-key check in this body; the unique index on
`transactions.idempotency_key` makes the final insert (and hence the
whole transaction) abort when the key is already present. An error rolls
back every write, so errors carry no state. -/
def purchaseTxnBody (plan : Plan) (now : ℤ) (userId idempotencyKey : String)
    (st : DBState) : Except PurchaseError (DBState × PurchaseResult) :=
  let finalPrice := calculateFinalPrice plan
  match st.users.find? (fun u => u._id = userId) with
  | none => .error .userNotFound
  | some user =>
    let userBalance := user.vv_balance
    if userBalance < finalPrice then
      .error (.insufficientBalance userBalance finalPrice)
    else
      let planDurationMs := (plan.days : ℤ) * msPerDay
      let existingSubscription := st.subscriptions.find? (fun s =>
        s.user_id = userId ∧ s.status = SubStatus.active ∧ now < s.expires_at)
      let stage :=
        match existingSubscription with
        | some ex =>
          -- renewal: update the document in place (lines 217-254)
          let newExpiresAt := ex.expires_at + planDurationMs
          let upd : Subscription → Subscription := fun s =>
            { s with
              expires_at := newExpiresAt
              updated_at := now
              last_renewed_at := some now
              last_renewal_plan_id := some plan.id
              last_renewal_amount := some finalPrice
              renewal_count := s.renewal_count + 1
              total_paid_vv := s.total_paid_vv + finalPrice }
          -- the `subscriptionData` result object spreads the old document
          -- and recomputes `total_paid_vv` with a `||` fallback chain
          let subscriptionData :=
            { ex with
              expires_at := newExpiresAt
              updated_at := now
              last_renewed_at := some now
              renewal_count := ex.renewal_count + 1
              total_paid_vv := jsOrQ ex.total_paid_vv (jsOrQ ex.paid_price_vv 0) + finalPrice }
          ({ st with subscriptions := updateFirstSub ex._id upd st.subscriptions },
            subscriptionData, true)
        | none =>
          -- new subscription (lines 255-282)
          let newExpiresAt := now + planDurationMs
          let subscriptionData : Subscription :=
            { _id := st.nextSubId
              user_id := userId
              plan_id := plan.id
              title := plan.title
              role_id := plan.role_id
              status := SubStatus.active
              created_at := now
              started_at := now
              expires_at := newExpiresAt
              updated_at := now
              expired_at := none
              duration_days := plan.days
              original_price_vv := plan.price_vv
              paid_price_vv := finalPrice
              total_paid_vv := finalPrice
              discount_applied := plan.discount
              renewal_count := 0
              last_renewed_at := none
              last_renewal_plan_id := none
              last_renewal_amount := none
              warning_sent := false
              warning_sent_at := none }
          ({ st with
              subscriptions := st.subscriptions ++ [subscriptionData]
              nextSubId := st.nextSubId + 1 },
            subscriptionData, false)
      let st1 := stage.1
      let subscriptionData := stage.2.1
      let isRenewal := stage.2.2
      -- debit the balance (lines 284-295)
      let newBalance := userBalance - finalPrice
      let st2 := { st1 with
        users := updateFirstUser userId
          (fun u => { u with vv_balance := newBalance, updated_at := now }) st1.users }
      -- insert the transaction record (lines 297-319); the unique index on
      -- idempotency_key aborts the transaction on a duplicate
      if st2.transactions.any (fun t => t.idempotency_key = idempotencyKey) then
        .error .duplicateKeyAbort
      else
        let transactionData : TransactionRecord :=
          { _id := st2.nextTxId
            user_id := userId
            subscription_id := subscriptionData._id
            plan_id := plan.id
            plan_title := plan.title
            amount_vv := plan.price_vv
            final_price_vv := finalPrice
            discount_applied := plan.discount
            discount_amount := plan.price_vv - finalPrice
            is_renewal_type := isRenewal
            created_at := now
            idempotency_key := idempotencyKey
            user_balance_before := userBalance
            user_balance_after := newBalance
            duration_days := plan.days }
        .ok ({ st2 with
                transactions := st2.transactions ++ [transactionData]
                nextTxId := st2.nextTxId + 1 },
          { finalPrice := finalPrice
            subscription := subscriptionData
            transaction := transactionData
            isRenewal := isRenewal })

/-- `SubscriptionService.purchaseSubscription` (lines 153-397): plan
lookup, final-price computation, the duplicate-transaction check against
the `transactions` collection (lines 165-171, performed before the
session/transaction is started), then the atomic transaction body. -/
def purchaseSubscription (plans : List Plan) (now : ℤ)
    (userId planId idempotencyKey : String) (st : DBState) :
    Except PurchaseError (DBState × PurchaseResult) :=
  match plans.find? (fun p => p.id = planId) with
  | none => .error .planNotFound
  | some plan =>
    if st.transactions.any (fun t => t.idempotency_key = idempotencyKey) then
      .error .duplicateTransaction
    else
      purchaseTxnBody plan now userId idempotencyKey st

/-- The `operation` field of POST /admin/users/:userId/balance. -/
inductive AdminBalanceOp : Type
  | set : AdminBalanceOp
  | add : AdminBalanceOp
  | subtract : AdminBalanceOp
deriving DecidableEq, Repr

/-- Core of POST /admin/users/:userId/balance
(src/routes/subscription.js lines 311-344): look the user up, compute the
new balance by the requested operation (`set` assigns the amount, `add`
adds it, `subtract` clamps at zero via `Math.max`), write it back.
Returns `(state, balance_before, balance_after)`; `none` when the user is
missing (404). The `admin_actions` audit insert is outside the modelled
state. -/
def adminAdjustBalance (userId : String) (op : AdminBalanceOp)
    (adjustmentAmount : ℚ) (now : ℤ) (st : DBState) :
    Option (DBState × ℚ × ℚ) :=
  match st.users.find? (fun u => u._id = userId) with
  | none => none
  | some user =>
    let currentBalance := user.vv_balance
    let newBalance :=
      match op with
      | AdminBalanceOp.set => adjustmentAmount
      | AdminBalanceOp.add => currentBalance + adjustmentAmount
      | AdminBalanceOp.subtract => max 0 (currentBalance - adjustmentAmount)
    some
      ({ st with
          users := updateFirstUser userId
            (fun u => { u with vv_balance := newBalance, updated_at := now }) st.users },
        currentBalance, newBalance)

/-- One balance-mutating operation of the system: a purchase attempt or an
admin balance adjustment. -/
inductive Op : Type
  | purchase (now : ℤ) (userId planId idempotencyKey : String) : Op
  | adminAdjust (now : ℤ) (userId : String) (op : AdminBalanceOp) (amount : ℚ) : Op
deriving Repr

/-- Run one operation; a failed operation leaves the store unchanged (the
purchase transaction rolls back, the admin route returns an error). -/
def runOp (plans : List Plan) (st : DBState) : Op → DBState
  | Op.purchase now userId planId key =>
    match purchaseSubscription plans now userId planId key st with
    | .ok (st1, _) => st1
    | .error _ => st
  | Op.adminAdjust now userId op amount =>
    match adminAdjustBalance userId op amount now st with
    | some (st1, _, _) => st1
    | none => st

/-- Run a sequence of balance-mutating operations. -/
def runOps (plans : List Plan) (ops : List Op) (st : DBState) : DBState :=
  ops.foldl (runOp plans) st

/-- Lifecycle events emitted towards Discord by the sweeps; `roleRevoke`
carries whether the API call succeeded (its failure is caught and only
logged). -/
inductive Event : Type
  | warned (subId : ℕ) (userId : String) : Event
  | expired (subId : ℕ) (userId : String) : Event
  | roleRevoke (userId roleId : String) (ok : Bool) : Event
deriving DecidableEq, Repr

/-- `db.collection('users').findOne({_id: ...})` succeeds. -/
def userExists (users : List User) (userId : String) : Bool :=
  users.any (fun u => u._id = userId)

/-- Start of the current day: `new Date()` with `setHours(0,0,0,0)`. -/
def dayStart (now : ℤ) : ℤ := msPerDay * (now.ediv msPerDay)

/-- `tomorrow.setDate(+1); tomorrow.setHours(23,59,59,999)`: the end of
tomorrow, i.e. two days after the start of today minus one millisecond. -/
def warnWindowEnd (now : ℤ) : ℤ := dayStart now + 2 * msPerDay - 1

/-- Selection filter of `ExpiryManager.sendExpiryWarnings`
(lines 1087-1094): status active, `expires_at` between the start of today
and the end of tomorrow, `warning_sent: {$ne: true}`. -/
def warnPredB (now : ℤ) (s : Subscription) : Bool :=
  decide (s.status = SubStatus.active ∧ dayStart now ≤ s.expires_at ∧
    s.expires_at ≤ warnWindowEnd now ∧ s.warning_sent = false)

/-- The `$set` applied once a warning is sent (lines 1104-1113). -/
def markWarned (now : ℤ) (s : Subscription) : Subscription :=
  { s with warning_sent := true, warning_sent_at := some now, updated_at := now }

/-- `ExpiryManager.sendExpiryWarnings` (lines 1076-1134): select the
to-warn subscriptions once, then per item send the warning message (which
is emitted only when the user document exists, cf.
`sendExpiryWarningChannelMessage` lines 932-936) and set `warning_sent`.
Returns the new state and the emitted events. -/
def sendExpiryWarnings (now : ℤ) (st : DBState) : DBState × List Event :=
  let selected := st.subscriptions.filter (warnPredB now)
  let res := selected.foldl
    (fun (acc : List Subscription × List Event) s =>
      (updateFirstSub s._id (markWarned now) acc.1,
        acc.2 ++ if userExists st.users s.user_id then [Event.warned s._id s.user_id] else []))
    (st.subscriptions, [])
  ({ st with subscriptions := res.1 }, res.2)

/-- Selection filter of `ExpiryManager.handleExpiredSubscriptions` and of
the stale-subscription query of `runRecoveryCheck` (identical query):
status active and `expires_at < now`. -/
def expiredPredB (now : ℤ) (s : Subscription) : Bool :=
  decide (s.status = SubStatus.active ∧ s.expires_at < now)

/-- The `$set` of the expiry transition (lines 1191-1200). -/
def markExpired (now : ℤ) (s : Subscription) : Subscription :=
  { s with status := SubStatus.expired, expired_at := some now, updated_at := now }

/-- Failure oracles for the external calls and the store write inside
`processExpiredSubscription`, keyed by subscription id. `roleFail`:
`removeDiscordRole` fails (caught at lines 1184-1187, processing
continues); `updateFail`: the status `updateOne` throws (the per-item
handler of the caller catches it, so only this item is skipped);
`notifyFail`: `sendExpiredChannelMessage` fails (caught at lines
1206-1209, the already-applied transition stands). -/
structure FailureOracles : Type where
  roleFail : ℕ → Bool
  updateFail : ℕ → Bool
  notifyFail : ℕ → Bool

/-- No external or store failures. -/
def noFailures : FailureOracles :=
  { roleFail := fun _ => false, updateFail := fun _ => false, notifyFail := fun _ => false }

/-- `ExpiryManager.processExpiredSubscription` (lines 1173-1216): best-effort
role revocation, then the status transition to expired, then the
best-effort expired notification (emitted only when the user document
exists, cf. `sendExpiredChannelMessage` lines 856-860). When the status
update itself throws, the document is left unchanged and no notification
is sent; the caller catches the error per item. -/
def processExpiredSubscription (fo : FailureOracles) (now : ℤ)
    (users : List User) (s : Subscription) (subs : List Subscription) :
    List Subscription × List Event :=
  let roleEvents :=
    if s.role_id ≠ "" then [Event.roleRevoke s.user_id s.role_id (!fo.roleFail s._id)]
    else []
  if fo.updateFail s._id then
    (subs, roleEvents)
  else
    let subs1 := updateFirstSub s._id (markExpired now) subs
    let expEvents :=
      if userExists users s.user_id && !fo.notifyFail s._id then
        [Event.expired s._id s.user_id]
      else []
    (subs1, roleEvents ++ expEvents)

/-- `ExpiryManager.handleExpiredSubscriptions` (lines 1136-1171): select
the expired-but-active subscriptions once, then process each item,
catching per-item failures so one failure does not abort the sweep. -/
def handleExpiredSubscriptions (fo : FailureOracles) (now : ℤ) (st : DBState) :
    DBState × List Event :=
  let selected := st.subscriptions.filter (expiredPredB now)
  let res := selected.foldl
    (fun (acc : List Subscription × List Event) s =>
      let pr := processExpiredSubscription fo now st.users s acc.1
      (pr.1, acc.2 ++ pr.2))
    (st.subscriptions, [])
  ({ st with subscriptions := res.1 }, res.2)

/-- `ExpiryManager.checkExpiries` (lines 1057-1074): one scheduled sweep =
the warning pass followed by the expiry pass. -/
def checkExpiries (fo : FailureOracles) (now : ℤ) (st : DBState) :
    DBState × List Event :=
  let r1 := sendExpiryWarnings now st
  let r2 := handleExpiredSubscriptions fo now r1.1
  (r2.1, r1.2 ++ r2.2)

/-- Selection filter of the missed-warning query of `runRecoveryCheck`
(lines 1257-1262): status active, `now < expires_at < now + 24h`,
`warning_sent: {$ne: true}`. -/
def recoveryWarnPredB (now : ℤ) (s : Subscription) : Bool :=
  decide (s.status = SubStatus.active ∧ s.expires_at < now + msPerDay ∧
    now < s.expires_at ∧ s.warning_sent = false)

/-- `ExpiryManager.runRecoveryCheck` (lines 1218-1302): process every
stale active subscription exactly like the expiry pass (same query, same
`processExpiredSubscription`), then send the missed warnings for the
strict next-24-hours window. -/
def runRecoveryCheck (fo : FailureOracles) (now : ℤ) (st : DBState) :
    DBState × List Event :=
  let r1 := handleExpiredSubscriptions fo now st
  let st1 := r1.1
  let selected := st1.subscriptions.filter (recoveryWarnPredB now)
  let res := selected.foldl
    (fun (acc : List Subscription × List Event) s =>
      (updateFirstSub s._id (markWarned now) acc.1,
        acc.2 ++ if userExists st1.users s.user_id then [Event.warned s._id s.user_id] else []))
    (st1.subscriptions, [])
  ({ st1 with subscriptions := res.1 }, r1.2 ++ res.2)

/-- The spec constrains admin balance adjustments to nonnegative deltas
(`set`, `add(delta >= 0)`, `subtract(delta >= 0)`); this predicate states
that every admin operation of a sequence carries a nonnegative amount. -/
def adminAmountsOk (ops : List Op) : Prop :=
  ∀ op ∈ ops, match op with
    | Op.adminAdjust _ _ _ amount => 0 ≤ amount
    | _ => True

/-- A plan priced 100 VV for 30 days, no discount (witness inputs). -/
def wPlan : Plan := ⟨"p", "Premium", 100, 30, "r1", none⟩

/-- A plan priced 150 VV for 30 days, no discount (witness inputs). -/
def wPlanBig : Plan := ⟨"pb", "Big", 150, 30, "r1", none⟩

/-- A user holding 500 VV (witness inputs). -/
def wUser : User := ⟨"u", 500, 0⟩

/-- A store with one user and no subscriptions or transactions. -/
def wStEmpty : DBState := ⟨[wUser], [], [], 1, 1⟩

/-- The subscription document created by buying `wPlan` from `wStEmpty`
at time 1000. -/
def wSub1 : Subscription :=
  ⟨1, "u", "p", "Premium", "r1", SubStatus.active, 1000, 1000, 2592001000, 1000,
    none, 30, 100, 100, 100, none, 0, none, none, none, false, none⟩

/-- The transaction record of that purchase. -/
def wTx1 : TransactionRecord :=
  ⟨1, "u", 1, "p", "Premium", 100, 100, none, 0, false, 1000, "k", 500, 400, 30⟩

/-- The store after that purchase. -/
def wSt1 : DBState := ⟨[⟨"u", 400, 1000⟩], [wSub1], [wTx1], 2, 2⟩

/-- The result object of that purchase. -/
def wRes1 : PurchaseResult := ⟨100, wSub1, wTx1, false⟩

/-- A plan priced 10 VV (counterexample inputs for the in-transaction
idempotency-ordering claim). -/
def cexPlanC2 : Plan := ⟨"p", "Premium", 10, 30, "r1", none⟩

/-- An already-logged transaction with idempotency key "k". -/
def cexTxC2 : TransactionRecord :=
  ⟨1, "u", 1, "p", "Premium", 10, 10, none, 0, false, 0, "k", 15, 5, 30⟩

/-- A user holding 5 VV, less than `cexPlanC2`'s price. -/
def cexUserC2 : User := ⟨"u", 5, 0⟩

/-- A store in which key "k" is already logged and the user's balance is
insufficient. -/
def cexStC2 : DBState := ⟨[cexUserC2], [], [cexTxC2], 2, 2⟩

/-- A user holding 100 VV (admin-adjustment counterexample). -/
def cexUserC3 : User := ⟨"u", 100, 0⟩

/-- A store with that single user. -/
def cexStC3 : DBState := ⟨[cexUserC3], [], [], 1, 1⟩

/-- A plan priced 100 with a 150-percent discount (pricing counterexample). -/
def cexPlanPct150 : Plan := ⟨"p", "Premium", 100, 30, "r1", some ⟨DiscountType.percent, 150⟩⟩

/-- A plan priced 100 with a fixed discount of 150. -/
def cexPlanFix150 : Plan := ⟨"pf", "Premium", 100, 30, "r1", some ⟨DiscountType.fixed, 150⟩⟩

/-- A plan priced 100 with a 25-percent discount. -/
def cexPlanPct25 : Plan := ⟨"pc", "Premium", 100, 30, "r1", some ⟨DiscountType.percent, 25⟩⟩

/-- An active, never-warned subscription expiring 40 hours after epoch. -/
def cexSubFar : Subscription :=
  ⟨1, "u", "p", "Premium", "r1", SubStatus.active, 0, 0, 144000000, 0,
    none, 30, 100, 100, 100, none, 0, none, none, none, false, none⟩

/-- A store holding that subscription and its user (warning-window
counterexample: a run at time 0 warns it although it expires 40 hours
later). -/
def cexStC6 : DBState := ⟨[⟨"u", 0, 0⟩], [cexSubFar], [], 2, 1⟩

/-- An active subscription of user "u" expiring 10 days after epoch,
never warned (renewal witness). -/
def wSubAct : Subscription :=
  ⟨1, "u", "p", "Premium", "r1", SubStatus.active, 0, 0, 864000000, 0,
    none, 30, 100, 100, 100, none, 0, none, none, none, false, none⟩

/-- A store with `wUser` and that active subscription. -/
def wStRenew : DBState := ⟨[wUser], [wSubAct], [], 2, 1⟩

/-- A still-`active` subscription whose `expires_at` is already in the
past (at the epoch), not yet swept (stale-renewal witness). -/
def wSubStale : Subscription :=
  ⟨1, "u", "p", "Premium", "r1", SubStatus.active, 0, 0, 0, 0,
    none, 30, 100, 100, 100, none, 0, none, none, none, false, none⟩

/-- A store with `wUser` and that stale subscription. -/
def wStStale : DBState := ⟨[wUser], [wSubStale], [], 2, 1⟩

/-- A store with the stale subscription and its user, used for sweep
witnesses with the sweep run three days (259200000 ms) after the epoch. -/
def wStSweep : DBState := ⟨[wUser], [wSubStale], [], 2, 1⟩

/-- A second active stale subscription, id 2, of another user. -/
def wSubStale2 : Subscription :=
  ⟨2, "v", "p", "Premium", "r1", SubStatus.active, 0, 0, 100, 0,
    none, 30, 100, 100, 100, none, 0, none, none, none, false, none⟩

/-- A store with two stale subscriptions (per-item isolation witness). -/
def wStSweep9 : DBState := ⟨[wUser, ⟨"v", 0, 0⟩], [wSubStale, wSubStale2], [], 3, 1⟩

/-- Failure oracles making every role revocation and every notification
fail, and every status update except subscription 1's throw. -/
def wFoFail : FailureOracles :=
  ⟨fun _ => true, fun i => decide (i ≠ 1), fun _ => true⟩

/-- The `_id` values of a list of subscription documents. MongoDB
guarantees `_id` uniqueness within a collection, which the theorems state
as `(subIds l).Nodup`. -/
def subIds (l : List Subscription) : List ℕ := l.map (fun s => s._id)

/-- The events `processExpiredSubscription` emits for one item, as a
function of the item alone (they do not depend on the accumulated
subscription list). -/
def expiredEvents (fo : FailureOracles) (users : List User) (s : Subscription) :
    List Event :=
  (if s.role_id ≠ "" then [Event.roleRevoke s.user_id s.role_id (!fo.roleFail s._id)]
   else []) ++
  (if !fo.updateFail s._id && (userExists users s.user_id && !fo.notifyFail s._id) then
    [Event.expired s._id s.user_id]
   else [])

/-- The events one warned item yields (the message is only sent when the
user document exists). -/
def warnEvents (users : List User) (s : Subscription) : List Event :=
  if userExists users s.user_id then [Event.warned s._id s.user_id] else []

/-- The balance of a user as the purchase engine reads it. -/
def getBalance (st : DBState) (userId : String) : Option ℚ :=
  (st.users.find? (fun u => u._id = userId)).map (fun u => u.vv_balance)

section Lemmas

/-- `processExpiredSubscription` as a pair of a state transformer and an
item-local event list. -/
theorem processExpiredSubscription_eq (fo : FailureOracles) (now : ℤ)
    (users : List User) (s : Subscription) (subs : List Subscription) :
    processExpiredSubscription fo now users s subs =
      ((if fo.updateFail s._id then subs else updateFirstSub s._id (markExpired now) subs),
        expiredEvents fo users s) := by
  unfold processExpiredSubscription expiredEvents
  by_cases hu : fo.updateFail s._id
  · simp [hu]
  · simp [hu]

/-- A paired fold whose event component is item-local splits into the
state fold and the concatenation of the per-item events. -/
theorem foldl_pair_split (G : List Subscription → Subscription → List Subscription)
    (h : Subscription → List Event) (sel : List Subscription)
    (l0 : List Subscription) (e0 : List Event) :
    sel.foldl (fun acc s => (G acc.1 s, acc.2 ++ h s)) (l0, e0) =
      (sel.foldl G l0, e0 ++ sel.flatMap h) := by
  induction sel generalizing l0 e0 with
  | nil => simp
  | cons s sel ih => simp [ih, List.append_assoc]

/-- Folding per-item first-match updates over items whose ids avoid the
head leaves the head untouched. -/
theorem foldl_update_cons (f : Subscription → Subscription) (skip : ℕ → Bool)
    (sel : List Subscription) (a : Subscription) (l : List Subscription)
    (ha : ∀ s ∈ sel, ¬ s._id = a._id) :
    sel.foldl (fun acc s => if skip s._id then acc else updateFirstSub s._id f acc) (a :: l)
      = a :: sel.foldl (fun acc s => if skip s._id then acc else updateFirstSub s._id f acc) l := by
  induction sel generalizing l with
  | nil => rfl
  | cons s sel ih =>
    have hs : ¬ a._id = s._id := fun hcontra => ha s (List.mem_cons_self s sel) hcontra.symm
    have hstep :
        (if skip s._id then a :: l else updateFirstSub s._id f (a :: l))
          = a :: (if skip s._id then l else updateFirstSub s._id f l) := by
      by_cases hsk : skip s._id
      · simp [hsk]
      · simp [hsk, updateFirstSub, hs]
    simp only [List.foldl_cons, hstep]
    exact ih (if skip s._id then l else updateFirstSub s._id f l)
      (fun t ht => ha t (List.mem_cons_of_mem s ht))

/-- The per-item update loop of a sweep, run over the items selected
up-front, acts as a pointwise map on the collection when the ids are
unique (each selected item is its own first match, and processed items
keep their ids). -/
theorem foldl_update_char (f : Subscription → Subscription) (skip : ℕ → Bool)
    (hf : ∀ s, (f s)._id = s._id) (p : Subscription → Bool)
    (l : List Subscription) (hnd : (subIds l).Nodup) :
    (l.filter p).foldl
        (fun acc s => if skip s._id then acc else updateFirstSub s._id f acc) l
      = l.map (fun s => if p s && !skip s._id then f s else s) := by
  induction l with
  | nil => simp
  | cons a l ih =>
    rw [List.filter_cons]
    have hnd' : (subIds l).Nodup := (List.nodup_cons.mp hnd).2
    have hna : a._id ∉ subIds l := by
      have := (List.nodup_cons.mp hnd).1
      simpa [subIds] using this
    have hids : ∀ s ∈ l.filter p, ¬ s._id = a._id := by
      intro s hs hcontra
      exact hna (hcontra ▸ List.mem_map_of_mem (fun t => t._id) (List.mem_of_mem_filter hs))
    by_cases hpa : p a
    · simp only [hpa, if_pos rfl, List.foldl_cons, if_true]
      by_cases hsk : skip a._id
      · have h1 : (if skip a._id then a :: l else updateFirstSub a._id f (a :: l)) = a :: l := by
          simp [hsk]
        rw [h1, foldl_update_cons f skip _ a l hids, ih hnd']
        simp [hpa, hsk]
      · have h1 : (if skip a._id then a :: l else updateFirstSub a._id f (a :: l))
            = f a :: l := by
          simp [hsk, updateFirstSub]
        have hids' : ∀ s ∈ l.filter p, ¬ s._id = (f a)._id := by
          intro s hs
          rw [hf a]
          exact hids s hs
        rw [h1, foldl_update_cons f skip _ (f a) l hids', ih hnd']
        simp [hpa, hsk]
    · have hpa' : p a = false := by simpa using hpa
      simp only [hpa', if_neg (by simp : ¬ (false = true))]
      rw [foldl_update_cons f skip _ a l hids, ih hnd']
      simp [hpa']

/-- `updateFirstSub` keeps the length of the collection. -/
theorem length_updateFirstSub (sid : ℕ) (f : Subscription → Subscription)
    (l : List Subscription) : (updateFirstSub sid f l).length = l.length := by
  induction l with
  | nil => rfl
  | cons s rest ih =>
    unfold updateFirstSub
    by_cases h : s._id = sid
    · simp [h]
    · simp [h, ih]

/-- With unique ids, updating the first document with `ex`'s id rewrites
`ex` itself: the updated document is in the result. -/
theorem mem_updateFirstSub_self (f : Subscription → Subscription)
    (l : List Subscription) (ex : Subscription) (hmem : ex ∈ l)
    (hnd : (subIds l).Nodup) : f ex ∈ updateFirstSub ex._id f l := by
  induction l with
  | nil => cases hmem
  | cons a l ih =>
    have hnd' : (subIds l).Nodup := (List.nodup_cons.mp hnd).2
    have hna : a._id ∉ subIds l := by
      have := (List.nodup_cons.mp hnd).1
      simpa [subIds] using this
    unfold updateFirstSub
    by_cases hid : a._id = ex._id
    · have hae : a = ex := by
        rcases List.mem_cons.mp hmem with h | h
        · exact h.symm
        · exact absurd (hid ▸ List.mem_map_of_mem (fun t => t._id) h) hna
      simp [hid, hae]
    · have hexl : ex ∈ l := by
        rcases List.mem_cons.mp hmem with h | h
        · exact absurd (h ▸ rfl) hid
        · exact h
      simp [hid, List.mem_cons, ih hexl hnd']

/-- Decomposition of membership after a first-match user update. -/
theorem mem_updateFirstUser (uid : String) (f : User → User) (l : List User)
    (u1 : User) (hu : u1 ∈ updateFirstUser uid f l) :
    u1 ∈ l ∨ ∃ u ∈ l, u1 = f u := by
  induction l with
  | nil => cases hu
  | cons a l ih =>
    unfold updateFirstUser at hu
    by_cases h : a._id = uid
    · rw [if_pos h] at hu
      rcases List.mem_cons.mp hu with h1 | h1
      · exact Or.inr ⟨a, List.mem_cons_self a l, h1⟩
      · exact Or.inl (List.mem_cons_of_mem a h1)
    · rw [if_neg h] at hu
      rcases List.mem_cons.mp hu with h1 | h1
      · exact Or.inl (h1 ▸ List.mem_cons_self a l)
      · rcases ih h1 with h2 | ⟨u, hu1, hu2⟩
        · exact Or.inl (List.mem_cons_of_mem a h2)
        · exact Or.inr ⟨u, List.mem_cons_of_mem a hu1, hu2⟩

/-- After a first-match update whose function keeps the id, `find?` by
that id returns the updated document. -/
theorem find?_updateFirstUser (uid : String) (f : User → User) (l : List User)
    (user : User) (hfind : l.find? (fun u => u._id = uid) = some user)
    (hf : (f user)._id = user._id) :
    (updateFirstUser uid f l).find? (fun u => u._id = uid) = some (f user) := by
  induction l with
  | nil => cases hfind
  | cons a l ih =>
    by_cases h : a._id = uid
    · have ha : a = user := by
        rw [List.find?_cons] at hfind
        simp [h] at hfind
        exact hfind
      unfold updateFirstUser
      rw [if_pos h, List.find?_cons]
      subst ha
      simp [hf, h]
    · have hfind' : l.find? (fun u => u._id = uid) = some user := by
        rw [List.find?_cons] at hfind
        simpa [h] using hfind
      unfold updateFirstUser
      rw [if_neg h, List.find?_cons]
      simp only [h, decide_eq_true_eq]
      simpa [h] using ih hfind'

/-- `markWarned` keeps the id. -/
theorem markWarned_id (now : ℤ) (s : Subscription) : (markWarned now s)._id = s._id := rfl

/-- `markExpired` keeps the id. -/
theorem markExpired_id (now : ℤ) (s : Subscription) : (markExpired now s)._id = s._id := rfl

/-- `foldl_pair_split` with the step function given pointwise. -/
theorem foldl_pair_split_of (F : List Subscription × List Event → Subscription → List Subscription × List Event)
    (G : List Subscription → Subscription → List Subscription)
    (h : Subscription → List Event)
    (hF : ∀ acc s, F acc s = (G acc.1 s, acc.2 ++ h s))
    (sel : List Subscription) (l0 : List Subscription) (e0 : List Event) :
    sel.foldl F (l0, e0) = (sel.foldl G l0, e0 ++ sel.flatMap h) := by
  have hFe : F = fun acc s => (G acc.1 s, acc.2 ++ h s) :=
    funext fun acc => funext fun s => hF acc s
  subst hFe
  exact foldl_pair_split G h sel l0 e0

/-- `foldl_update_char` with the step function given pointwise. -/
theorem foldl_update_char_of (G : List Subscription → Subscription → List Subscription)
    (f : Subscription → Subscription) (skip : ℕ → Bool)
    (hG : ∀ acc s, G acc s = if skip s._id then acc else updateFirstSub s._id f acc)
    (hf : ∀ s, (f s)._id = s._id) (p : Subscription → Bool)
    (l : List Subscription) (hnd : (subIds l).Nodup) :
    (l.filter p).foldl G l = l.map (fun s => if p s && !skip s._id then f s else s) := by
  have hGe : G = fun acc s => if skip s._id then acc else updateFirstSub s._id f acc :=
    funext fun acc => funext fun s => hG acc s
  subst hGe
  exact foldl_update_char f skip hf p l hnd

/-- The shared warn-and-mark loop (used by both the warning pass and the
recovery pass) acts pointwise on the collection and emits the per-item
warn events of the selected items. -/
theorem warnFold_char (users : List User) (now : ℤ) (p : Subscription → Bool)
    (l : List Subscription) (hnd : (subIds l).Nodup) :
    (l.filter p).foldl
        (fun (acc : List Subscription × List Event) s =>
          (updateFirstSub s._id (markWarned now) acc.1,
            acc.2 ++ if userExists users s.user_id then [Event.warned s._id s.user_id] else []))
        (l, []) =
      (l.map (fun s => if p s then markWarned now s else s),
        (l.filter p).flatMap (warnEvents users)) := by
  have hs := foldl_pair_split_of
    (fun (acc : List Subscription × List Event) s =>
      (updateFirstSub s._id (markWarned now) acc.1,
        acc.2 ++ if userExists users s.user_id then [Event.warned s._id s.user_id] else []))
    (fun a s => updateFirstSub s._id (markWarned now) a)
    (warnEvents users)
    (fun acc s => by simp [warnEvents])
    (l.filter p) l []
  rw [hs]
  have hu := foldl_update_char_of
    (fun a s => updateFirstSub s._id (markWarned now) a)
    (markWarned now) (fun _ => false)
    (fun acc s => by simp)
    (markWarned_id now) p l hnd
  rw [hu]
  simp

/-- The warning pass acts pointwise: every selected subscription (and no
other) is marked warned, and the events are those of the selected items. -/
theorem sendExpiryWarnings_char (now : ℤ) (st : DBState)
    (hnd : (subIds st.subscriptions).Nodup) :
    sendExpiryWarnings now st =
      ({ st with subscriptions := (st.subscriptions.map
          (fun s => if warnPredB now s then markWarned now s else s)) },
        (st.subscriptions.filter (warnPredB now)).flatMap (warnEvents st.users)) := by
  unfold sendExpiryWarnings
  dsimp only
  rw [warnFold_char st.users now (warnPredB now) st.subscriptions hnd]

/-- The expiry pass acts pointwise: every selected subscription whose
status update does not fail is transitioned, the others are untouched, and
the events are the per-item events of the selected items. -/
theorem handleExpiredSubscriptions_char (fo : FailureOracles) (now : ℤ) (st : DBState)
    (hnd : (subIds st.subscriptions).Nodup) :
    handleExpiredSubscriptions fo now st =
      ({ st with subscriptions := (st.subscriptions.map
          (fun s => if expiredPredB now s && !fo.updateFail s._id then markExpired now s else s)) },
        (st.subscriptions.filter (expiredPredB now)).flatMap (expiredEvents fo st.users)) := by
  unfold handleExpiredSubscriptions
  dsimp only
  have hs := foldl_pair_split_of
    (fun (acc : List Subscription × List Event) s =>
      let pr := processExpiredSubscription fo now st.users s acc.1
      (pr.1, acc.2 ++ pr.2))
    (fun a s => if fo.updateFail s._id then a else updateFirstSub s._id (markExpired now) a)
    (expiredEvents fo st.users)
    (fun acc s => by simp [processExpiredSubscription_eq])
    (st.subscriptions.filter (expiredPredB now)) st.subscriptions []
  rw [hs]
  have hu := foldl_update_char_of
    (fun a s => if fo.updateFail s._id then a else updateFirstSub s._id (markExpired now) a)
    (markExpired now) fo.updateFail
    (fun acc s => rfl)
    (markExpired_id now) (expiredPredB now) st.subscriptions hnd
  rw [hu]
  simp

/-- Ids are unchanged by a pointwise conditional rewrite that keeps ids. -/
theorem subIds_map_ite (q : Subscription → Bool) (f : Subscription → Subscription)
    (hf : ∀ s, (f s)._id = s._id) (l : List Subscription) :
    subIds (l.map (fun s => if q s then f s else s)) = subIds l := by
  unfold subIds
  rw [List.map_map]
  apply List.map_congr_left
  intro s _
  by_cases hq : q s
  · simp [hq, hf]
  · simp [hq]

/-- Variant of `subIds_map_ite` for the conjunction guard of the expiry
pass. -/
theorem subIds_map_expire (fo : FailureOracles) (now : ℤ) (l : List Subscription) :
    subIds (l.map (fun s => if expiredPredB now s && !fo.updateFail s._id
      then markExpired now s else s)) = subIds l :=
  subIds_map_ite (fun s => expiredPredB now s && !fo.updateFail s._id)
    (markExpired now) (markExpired_id now) l

/-- The recovery sweep acts pointwise: first the expiry transition on the
stale items, then the missed warnings on the resulting state. -/
theorem runRecoveryCheck_char (fo : FailureOracles) (now : ℤ) (st : DBState)
    (hnd : (subIds st.subscriptions).Nodup) :
    runRecoveryCheck fo now st =
      (let subs1 := st.subscriptions.map
          (fun s => if expiredPredB now s && !fo.updateFail s._id then markExpired now s else s)
       ({ st with subscriptions := (subs1.map
            (fun s => if recoveryWarnPredB now s then markWarned now s else s)) },
        (st.subscriptions.filter (expiredPredB now)).flatMap (expiredEvents fo st.users) ++
          (subs1.filter (recoveryWarnPredB now)).flatMap (warnEvents st.users))) := by
  unfold runRecoveryCheck
  rw [handleExpiredSubscriptions_char fo now st hnd]
  have hnd1 : (subIds (st.subscriptions.map
      (fun s => if expiredPredB now s && !fo.updateFail s._id
        then markExpired now s else s))).Nodup := by
    rw [subIds_map_expire]
    exact hnd
  dsimp only
  rw [warnFold_char st.users now (recoveryWarnPredB now) _ hnd1]

/-- Inversion of a successful transaction body: the checks it passed and
the writes it performed. -/
theorem purchaseTxnBody_ok_inv (plan : Plan) (now : ℤ) (uid key : String)
    (st st1 : DBState) (r : PurchaseResult)
    (h : purchaseTxnBody plan now uid key st = .ok (st1, r)) :
    ∃ user, st.users.find? (fun u => u._id = uid) = some user ∧
      ¬ user.vv_balance < calculateFinalPrice plan ∧
      r.finalPrice = calculateFinalPrice plan ∧
      st.transactions.any (fun t => t.idempotency_key = key) = false ∧
      st1.users = updateFirstUser uid
        (fun u => { u with
          vv_balance := user.vv_balance - calculateFinalPrice plan
          updated_at := now }) st.users ∧
      st1.transactions = st.transactions ++ [r.transaction] ∧
      r.transaction.idempotency_key = key ∧
      ((r.isRenewal = true ∧ st1.subscriptions.length = st.subscriptions.length) ∨
        (r.isRenewal = false ∧ st1.subscriptions.length = st.subscriptions.length + 1)) := by
  unfold purchaseTxnBody at h
  cases hfind : st.users.find? (fun u => u._id = uid) with
  | none =>
    rw [hfind] at h
    simp at h
  | some user =>
    rw [hfind] at h
    dsimp only at h
    by_cases hbal : user.vv_balance < calculateFinalPrice plan
    · rw [if_pos hbal] at h
      simp at h
    · rw [if_neg hbal] at h
      refine ⟨user, rfl, hbal, ?_⟩
      cases hex : st.subscriptions.find? (fun s =>
          s.user_id = uid ∧ s.status = SubStatus.active ∧ now < s.expires_at) with
      | some ex =>
        rw [hex] at h
        dsimp only at h
        by_cases hdup : st.transactions.any (fun t => t.idempotency_key = key) = true
        · rw [if_pos hdup] at h
          simp at h
        · rw [if_neg hdup] at h
          injection h with h1
          injection h1 with h2 h3
          subst h2
          subst h3
          refine ⟨rfl, Bool.not_eq_true _ ▸ hdup, rfl, rfl, rfl, Or.inl ⟨rfl, ?_⟩⟩
          exact length_updateFirstSub ex._id _ st.subscriptions
      | none =>
        rw [hex] at h
        dsimp only at h
        by_cases hdup : st.transactions.any (fun t => t.idempotency_key = key) = true
        · rw [if_pos hdup] at h
          simp at h
        · rw [if_neg hdup] at h
          injection h with h1
          injection h1 with h2 h3
          subst h2
          subst h3
          refine ⟨rfl, Bool.not_eq_true _ ▸ hdup, rfl, rfl, rfl, Or.inr ⟨rfl, ?_⟩⟩
          simp

/-- Inversion of a successful `purchaseSubscription`: the plan lookup and
pre-transaction duplicate check passed, and the transaction body
succeeded. -/
theorem purchaseSubscription_ok_inv (plans : List Plan) (now : ℤ)
    (uid pid key : String) (st st1 : DBState) (r : PurchaseResult)
    (h : purchaseSubscription plans now uid pid key st = .ok (st1, r)) :
    ∃ plan, plans.find? (fun p => p.id = pid) = some plan ∧
      st.transactions.any (fun t => t.idempotency_key = key) = false ∧
      purchaseTxnBody plan now uid key st = .ok (st1, r) := by
  unfold purchaseSubscription at h
  cases hp : plans.find? (fun p => p.id = pid) with
  | none =>
    rw [hp] at h
    simp at h
  | some plan =>
    rw [hp] at h
    dsimp only at h
    by_cases hdup : st.transactions.any (fun t => t.idempotency_key = key) = true
    · rw [if_pos hdup] at h
      simp at h
    · rw [if_neg hdup] at h
      exact ⟨plan, rfl, Bool.not_eq_true _ ▸ hdup, h⟩

/-- After a successful purchase, the transaction log contains the key, so
the pre-transaction duplicate check of any later call with the same key
fires. -/
theorem purchase_then_duplicate (plans : List Plan) (now : ℤ)
    (uid pid key : String) (st st1 : DBState) (r : PurchaseResult)
    (h : purchaseSubscription plans now uid pid key st = .ok (st1, r)) :
    ∀ (now2 : ℤ) (uid2 : String),
      purchaseSubscription plans now2 uid2 pid key st1 = .error .duplicateTransaction := by
  obtain ⟨plan, hp, _, hbody⟩ := purchaseSubscription_ok_inv plans now uid pid key st st1 r h
  obtain ⟨user, _, _, _, _, _, htx, hkey, _⟩ :=
    purchaseTxnBody_ok_inv plan now uid key st st1 r hbody
  intro now2 uid2
  unfold purchaseSubscription
  rw [hp]
  dsimp only
  have hany : st1.transactions.any (fun t => t.idempotency_key = key) = true := by
    rw [htx]
    simp [hkey]
  rw [if_pos hany]

/-- A successful transaction body leaves the key in the log, so a second
body run with the same key cannot also succeed: the unique index on
`idempotency_key` aborts it at its insert step. -/
theorem txnBody_no_double_success (plan : Plan) (now : ℤ) (uid key : String)
    (st st1 : DBState) (r : PurchaseResult)
    (h : purchaseTxnBody plan now uid key st = .ok (st1, r)) :
    ∀ (plan2 : Plan) (now2 : ℤ) (uid2 : String) (x : DBState × PurchaseResult),
      purchaseTxnBody plan2 now2 uid2 key st1 ≠ .ok x := by
  obtain ⟨user, _, _, _, _, _, htx, hkey, _⟩ :=
    purchaseTxnBody_ok_inv plan now uid key st st1 r h
  intro plan2 now2 uid2 x hok2
  obtain ⟨user2, _, _, _, hnodup2, _⟩ :=
    purchaseTxnBody_ok_inv plan2 now2 uid2 key st1 x.1 x.2 (by
      rw [hok2])
  rw [htx] at hnodup2
  simp [hkey] at hnodup2

/-- A warned document never satisfies the warning filter again. -/
theorem warnPredB_markWarned (now now2 : ℤ) (s : Subscription) :
    warnPredB now (markWarned now2 s) = false := by
  simp [warnPredB, markWarned]

/-- A warned document never satisfies the recovery warning filter again. -/
theorem recoveryWarnPredB_markWarned (now now2 : ℤ) (s : Subscription) :
    recoveryWarnPredB now (markWarned now2 s) = false := by
  simp [recoveryWarnPredB, markWarned]

/-- An expired document never satisfies the expiry filter again. -/
theorem expiredPredB_markExpired (now now2 : ℤ) (s : Subscription) :
    expiredPredB now (markExpired now2 s) = false := by
  simp [expiredPredB, markExpired]

/-- An expired document never satisfies the warning filter. -/
theorem warnPredB_markExpired (now now2 : ℤ) (s : Subscription) :
    warnPredB now (markExpired now2 s) = false := by
  simp [warnPredB, markExpired]

/-- An expired document never satisfies the recovery warning filter. -/
theorem recoveryWarnPredB_markExpired (now now2 : ℤ) (s : Subscription) :
    recoveryWarnPredB now (markExpired now2 s) = false := by
  simp [recoveryWarnPredB, markExpired]

/-- Marking a warning does not change the expiry filter's verdict. -/
theorem expiredPredB_markWarned (now now2 : ℤ) (s : Subscription) :
    expiredPredB now (markWarned now2 s) = expiredPredB now s := by
  simp [expiredPredB, markWarned]

/-- A warning pass whose selection is empty changes nothing and emits
nothing. -/
theorem sendExpiryWarnings_noop (now : ℤ) (st : DBState)
    (h : st.subscriptions.filter (warnPredB now) = []) :
    sendExpiryWarnings now st = (st, []) := by
  unfold sendExpiryWarnings
  dsimp only
  rw [h]
  rfl

/-- An expiry pass whose selection is empty changes nothing and emits
nothing. -/
theorem handleExpiredSubscriptions_noop (fo : FailureOracles) (now : ℤ) (st : DBState)
    (h : st.subscriptions.filter (expiredPredB now) = []) :
    handleExpiredSubscriptions fo now st = (st, []) := by
  unfold handleExpiredSubscriptions
  dsimp only
  rw [h]
  rfl

/-- A scheduled sweep both of whose selections are empty changes nothing
and emits nothing. -/
theorem checkExpiries_noop (fo : FailureOracles) (now : ℤ) (st : DBState)
    (hw : st.subscriptions.filter (warnPredB now) = [])
    (he : st.subscriptions.filter (expiredPredB now) = []) :
    checkExpiries fo now st = (st, []) := by
  unfold checkExpiries
  rw [sendExpiryWarnings_noop now st hw]
  dsimp only
  rw [handleExpiredSubscriptions_noop fo now st he]
  rfl

/-- A recovery sweep both of whose selections are empty changes nothing
and emits nothing. -/
theorem runRecoveryCheck_noop (fo : FailureOracles) (now : ℤ) (st : DBState)
    (he : st.subscriptions.filter (expiredPredB now) = [])
    (hw : st.subscriptions.filter (recoveryWarnPredB now) = []) :
    runRecoveryCheck fo now st = (st, []) := by
  unfold runRecoveryCheck
  rw [handleExpiredSubscriptions_noop fo now st he]
  dsimp only
  rw [hw]
  rfl

/-- The events of one expired item are its role-revocation attempt or its
expired notification. -/
theorem mem_expiredEvents (fo : FailureOracles) (users : List User)
    (s : Subscription) (e : Event) (he : e ∈ expiredEvents fo users s) :
    e = Event.roleRevoke s.user_id s.role_id (!fo.roleFail s._id)
      ∨ e = Event.expired s._id s.user_id := by
  unfold expiredEvents at he
  rcases List.mem_append.mp he with h | h
  · by_cases hr : s.role_id ≠ "" <;> simp [hr] at h
    exact Or.inl h
  · by_cases hn : !fo.updateFail s._id && (userExists users s.user_id && !fo.notifyFail s._id)
      <;> simp [hn] at h
    exact Or.inr h

/-- Warn events never contain an expired notification. -/
theorem count_warnEvents_expired (users : List User) (l : List Subscription)
    (sid : ℕ) (uid2 : String) :
    (l.flatMap (warnEvents users)).count (Event.expired sid uid2) = 0 := by
  rw [List.count_eq_zero]
  intro hmem
  obtain ⟨s, _, hs⟩ := List.mem_flatMap.mp hmem
  unfold warnEvents at hs
  by_cases hu : userExists users s.user_id <;> simp [hu] at hs

/-- Items with a different id contribute no expired notification for the
given id. -/
theorem count_expired_flatMap_zero (fo : FailureOracles) (users : List User)
    (l : List Subscription) (sid : ℕ) (uid2 : String)
    (h : ∀ t ∈ l, t._id ≠ sid) :
    (l.flatMap (expiredEvents fo users)).count (Event.expired sid uid2) = 0 := by
  rw [List.count_eq_zero]
  intro hmem
  obtain ⟨t, ht, hte⟩ := List.mem_flatMap.mp hmem
  rcases mem_expiredEvents fo users t _ hte with he | he
  · simp at he
  · injection he with h1 h2
    exact h t ht h1.symm

/-- With no failures and an existing user, one expired item emits exactly
one expired notification for itself. -/
theorem count_expiredEvents_self (users : List User) (s : Subscription)
    (hu : userExists users s.user_id = true) :
    (expiredEvents noFailures users s).count (Event.expired s._id s.user_id) = 1 := by
  unfold expiredEvents noFailures
  rw [List.count_append]
  by_cases hr : s.role_id ≠ "" <;>
    simp [hr, hu, List.count_cons, List.count_nil]

/-- Items with a different id contribute no expired notification for a
given id (single-item form). -/
theorem count_expiredEvents_ne (fo : FailureOracles) (users : List User)
    (a : Subscription) (sid : ℕ) (uid2 : String) (hne : ¬ a._id = sid) :
    (expiredEvents fo users a).count (Event.expired sid uid2) = 0 := by
  rw [List.count_eq_zero]
  intro hmem
  rcases mem_expiredEvents fo users a _ hmem with he | he
  · simp at he
  · injection he with h1 h2
    exact hne h1.symm

/-- With unique ids, the expiry pass emits exactly one expired
notification for a selected item whose user exists. -/
theorem count_expired_flatMap_one (users : List User) (now : ℤ)
    (l : List Subscription) (s : Subscription)
    (hnd : (subIds l).Nodup) (hmem : s ∈ l)
    (hsel : expiredPredB now s = true)
    (hu : userExists users s.user_id = true) :
    ((l.filter (expiredPredB now)).flatMap
        (expiredEvents noFailures users)).count (Event.expired s._id s.user_id) = 1 := by
  induction l with
  | nil => cases hmem
  | cons a l ih =>
    have hnd' : (subIds l).Nodup := (List.nodup_cons.mp hnd).2
    have hna : a._id ∉ subIds l := by
      have := (List.nodup_cons.mp hnd).1
      simpa [subIds] using this
    rw [List.filter_cons]
    by_cases hid : a._id = s._id
    · have has : a = s := by
        rcases List.mem_cons.mp hmem with h | h
        · exact h.symm
        · exact absurd (hid ▸ List.mem_map_of_mem (fun t => t._id) h) hna
      subst has
      rw [if_pos hsel, List.flatMap_cons, List.count_append]
      rw [count_expiredEvents_self users a hu]
      rw [count_expired_flatMap_zero noFailures users _ a._id a.user_id
        (fun t ht => fun hc =>
          hna (hc ▸ List.mem_map_of_mem (fun x => x._id) (List.mem_of_mem_filter ht)))]
    · have hsl : s ∈ l := by
        rcases List.mem_cons.mp hmem with h | h
        · subst h
          exact absurd rfl hid
        · exact h
      cases hpa : expiredPredB now a with
      | true =>
        rw [if_pos rfl, List.flatMap_cons, List.count_append]
        rw [count_expiredEvents_ne noFailures users a s._id s.user_id hid]
        rw [ih hnd' hsl]
      | false =>
        rw [if_neg (by simp)]
        exact ih hnd' hsl

/-- One step of the operation runner keeps every balance nonnegative,
provided an admin adjustment's amount is nonnegative. -/
theorem runOp_preserves_nonneg (plans : List Plan) (st : DBState) (op : Op)
    (h0 : ∀ u ∈ st.users, 0 ≤ u.vv_balance)
    (hop : match op with
      | Op.adminAdjust _ _ _ amount => 0 ≤ amount
      | _ => True) :
    ∀ u ∈ (runOp plans st op).users, 0 ≤ u.vv_balance := by
  cases op with
  | purchase now uid pid key =>
    unfold runOp
    dsimp only
    cases hres : purchaseSubscription plans now uid pid key st with
    | error e =>
      exact h0
    | ok pr =>
      obtain ⟨st1, r⟩ := pr
      dsimp only
      obtain ⟨plan, hp, hdup, hbody⟩ :=
        purchaseSubscription_ok_inv plans now uid pid key st st1 r hres
      obtain ⟨user, huser, hbal, _, _, husers, _, _, _⟩ :=
        purchaseTxnBody_ok_inv plan now uid key st st1 r hbody
      intro u hu
      rw [husers] at hu
      rcases mem_updateFirstUser uid _ st.users u hu with h | ⟨u0, hu0, rfl⟩
      · exact h0 u h
      · exact sub_nonneg.mpr (not_lt.mp hbal)
  | adminAdjust now uid aop amount =>
    unfold runOp
    dsimp only
    cases hres : adminAdjustBalance uid aop amount now st with
    | none =>
      exact h0
    | some pr =>
      obtain ⟨st1, before1, after1⟩ := pr
      dsimp only
      unfold adminAdjustBalance at hres
      cases hfind : st.users.find? (fun u => u._id = uid) with
      | none =>
        rw [hfind] at hres
        simp at hres
      | some user =>
        rw [hfind] at hres
        dsimp only at hres
        injection hres with h1
        injection h1 with h2 h3
        rw [← h2]
        dsimp only
        intro u hu
        rcases mem_updateFirstUser uid _ st.users u hu with h | ⟨u0, hu0, rfl⟩
        · exact h0 u h
        · cases aop with
          | set => exact hop
          | add =>
            exact add_nonneg (h0 user (List.mem_of_find?_eq_some hfind)) hop
          | subtract => exact le_max_left 0 _

/-- Any sequence of operations keeps every balance nonnegative, provided
admin amounts are nonnegative. -/
theorem runOps_preserves_nonneg (plans : List Plan) (ops : List Op) :
    ∀ st : DBState, (∀ u ∈ st.users, 0 ≤ u.vv_balance) → adminAmountsOk ops →
      ∀ u ∈ (runOps plans ops st).users, 0 ≤ u.vv_balance := by
  induction ops with
  | nil =>
    intro st h0 _
    exact h0
  | cons op ops ih =>
    intro st h0 hops
    have h1 := runOp_preserves_nonneg plans st op h0 (hops op (List.mem_cons_self op ops))
    have hops' : adminAmountsOk ops := fun o ho => hops o (List.mem_cons_of_mem op ho)
    exact ih (runOp plans st op) h1 hops'

/-- A purchase whose final price exceeds the balance (with a known plan, a
fresh key and an existing user) fails with the insufficient-balance error
and leaves the store unchanged. -/
theorem purchase_insufficient (plans : List Plan) (now : ℤ)
    (uid pid key : String) (st : DBState) (plan : Plan) (user : User)
    (hp : plans.find? (fun p => p.id = pid) = some plan)
    (hdup : st.transactions.any (fun t => t.idempotency_key = key) = false)
    (huser : st.users.find? (fun u => u._id = uid) = some user)
    (hlt : user.vv_balance < calculateFinalPrice plan) :
    purchaseSubscription plans now uid pid key st
        = .error (.insufficientBalance user.vv_balance (calculateFinalPrice plan))
      ∧ runOp plans st (Op.purchase now uid pid key) = st := by
  have herr : purchaseSubscription plans now uid pid key st
      = .error (.insufficientBalance user.vv_balance (calculateFinalPrice plan)) := by
    unfold purchaseSubscription
    rw [hp]
    dsimp only
    rw [if_neg (by simp [hdup])]
    unfold purchaseTxnBody
    rw [huser]
    dsimp only
    rw [if_pos hlt]
  refine ⟨herr, ?_⟩
  unfold runOp
  dsimp only
  rw [herr]

/-- The expiry pass without failures: every selected item is expired. -/
theorem handleExpired_noFail_char (now : ℤ) (st : DBState)
    (hnd : (subIds st.subscriptions).Nodup) :
    handleExpiredSubscriptions noFailures now st =
      ({ st with subscriptions := (st.subscriptions.map
          (fun s => if expiredPredB now s then markExpired now s else s)) },
        (st.subscriptions.filter (expiredPredB now)).flatMap
          (expiredEvents noFailures st.users)) := by
  rw [handleExpiredSubscriptions_char noFailures now st hnd]
  simp [noFailures]

/-- The recovery sweep without failures. -/
theorem runRecoveryCheck_noFail_char (now : ℤ) (st : DBState)
    (hnd : (subIds st.subscriptions).Nodup) :
    runRecoveryCheck noFailures now st =
      (let subs1 := st.subscriptions.map
          (fun s => if expiredPredB now s then markExpired now s else s)
       ({ st with subscriptions := (subs1.map
            (fun s => if recoveryWarnPredB now s then markWarned now s else s)) },
        (st.subscriptions.filter (expiredPredB now)).flatMap
            (expiredEvents noFailures st.users) ++
          (subs1.filter (recoveryWarnPredB now)).flatMap (warnEvents st.users))) := by
  rw [runRecoveryCheck_char noFailures now st hnd]
  simp [noFailures]

/-- After one full scheduled sweep (warnings then expiries), no document
satisfies the warning filter. -/
theorem warnPredB_after_sweep (now : ℤ) (s : Subscription) :
    warnPredB now ((fun x => if expiredPredB now x then markExpired now x else x)
      ((fun x => if warnPredB now x then markWarned now x else x) s)) = false := by
  dsimp only
  by_cases hw : warnPredB now s = true
  · rw [if_pos hw]
    by_cases he : expiredPredB now (markWarned now s) = true
    · rw [if_pos he]
      exact warnPredB_markExpired now now _
    · rw [if_neg he]
      exact warnPredB_markWarned now now s
  · rw [if_neg hw]
    by_cases he : expiredPredB now s = true
    · rw [if_pos he]
      exact warnPredB_markExpired now now s
    · rw [if_neg he]
      exact (Bool.not_eq_true _) ▸ hw

/-- After one full scheduled sweep, no document satisfies the expiry
filter. -/
theorem expiredPredB_after_sweep (now : ℤ) (s : Subscription) :
    expiredPredB now ((fun x => if expiredPredB now x then markExpired now x else x)
      ((fun x => if warnPredB now x then markWarned now x else x) s)) = false := by
  dsimp only
  by_cases hw : warnPredB now s = true
  · rw [if_pos hw]
    by_cases he : expiredPredB now (markWarned now s) = true
    · rw [if_pos he]
      exact expiredPredB_markExpired now now _
    · rw [if_neg he]
      exact (Bool.not_eq_true _) ▸ he
  · rw [if_neg hw]
    by_cases he : expiredPredB now s = true
    · rw [if_pos he]
      exact expiredPredB_markExpired now now s
    · rw [if_neg he]
      exact (Bool.not_eq_true _) ▸ he

/-- After one full recovery sweep (expiries then missed warnings), no
document satisfies the expiry filter. -/
theorem expiredPredB_after_recovery (now : ℤ) (s : Subscription) :
    expiredPredB now ((fun x => if recoveryWarnPredB now x then markWarned now x else x)
      ((fun x => if expiredPredB now x then markExpired now x else x) s)) = false := by
  dsimp only
  by_cases he : expiredPredB now s = true
  · rw [if_pos he]
    by_cases hw : recoveryWarnPredB now (markExpired now s) = true
    · rw [if_pos hw, expiredPredB_markWarned]
      exact expiredPredB_markExpired now now s
    · rw [if_neg hw]
      exact expiredPredB_markExpired now now s
  · rw [if_neg he]
    by_cases hw : recoveryWarnPredB now s = true
    · rw [if_pos hw, expiredPredB_markWarned]
      exact (Bool.not_eq_true _) ▸ he
    · rw [if_neg hw]
      exact (Bool.not_eq_true _) ▸ he

/-- After one full recovery sweep, no document satisfies the missed
warning filter. -/
theorem recoveryWarnPredB_after_recovery (now : ℤ) (s : Subscription) :
    recoveryWarnPredB now ((fun x => if recoveryWarnPredB now x then markWarned now x else x)
      ((fun x => if expiredPredB now x then markExpired now x else x) s)) = false := by
  dsimp only
  by_cases he : expiredPredB now s = true
  · rw [if_pos he]
    by_cases hw : recoveryWarnPredB now (markExpired now s) = true
    · rw [if_pos hw]
      exact recoveryWarnPredB_markWarned now now _
    · rw [if_neg hw]
      exact recoveryWarnPredB_markExpired now now s
  · rw [if_neg he]
    by_cases hw : recoveryWarnPredB now s = true
    · rw [if_pos hw]
      exact recoveryWarnPredB_markWarned now now s
    · rw [if_neg hw]
      exact (Bool.not_eq_true _) ▸ hw

end Lemmas

section Claims

/-- C5 (amended): `calculateFinalPrice` returns the price when there is no
discount; a percent discount of value v multiplies by (1 - v/100) with no
floor at 0 (so a percent discount above 100 yields a negative price); a
fixed discount of value v yields max(0, price - v); the reported discount
amount is price minus the final price; price 100 with a 25% discount gives
75, and price 100 with fixed discount 150 gives final price 0 and
discount amount 100. -/
theorem C5_pricing_amended (i t ri : String) (d : ℕ) (price v : ℚ) :
    calculateFinalPrice ⟨i, t, price, d, ri, none⟩ = price
    ∧ calculateFinalPrice ⟨i, t, price, d, ri, some ⟨DiscountType.percent, v⟩⟩
        = price * (1 - v / 100)
    ∧ calculateFinalPrice ⟨i, t, price, d, ri, some ⟨DiscountType.fixed, v⟩⟩
        = max 0 (price - v)
    ∧ (calculateFinalPriceInfo ⟨i, t, price, d, ri, some ⟨DiscountType.fixed, v⟩⟩).discountAmount
        = price - max 0 (price - v)
    ∧ calculateFinalPrice cexPlanPct25 = 75
    ∧ calculateFinalPrice cexPlanFix150 = 0
    ∧ (calculateFinalPriceInfo cexPlanFix150).discountAmount = 100 := by
  refine ⟨rfl, rfl, rfl, rfl, ?_, ?_, ?_⟩
  · norm_num [calculateFinalPrice, cexPlanPct25]
  · norm_num [calculateFinalPrice, cexPlanFix150]
  · norm_num [calculateFinalPriceInfo, calculateFinalPrice, cexPlanFix150]

/-- C5 counterexample: a percent discount is not floored at 0 — a plan
priced 100 with a 150-percent discount yields the negative final price
-50, where the claim's flooring would give 0. -/
theorem C5_percent_not_floored_counterexample :
    calculateFinalPrice cexPlanPct150 = -50 ∧ calculateFinalPrice cexPlanPct150 < 0 := by
  constructor <;> norm_num [calculateFinalPrice, cexPlanPct150]

/-- C2 counterexample: the atomic transaction body contains no
idempotency-key check before the balance check — on a store whose
transaction log already holds the key and whose user balance is
insufficient, the body fails with InsufficientBalance, not
DuplicateTransaction. -/
theorem C2_no_incheck_counterexample :
    purchaseTxnBody cexPlanC2 0 "u" "k" cexStC2
      = .error (PurchaseError.insufficientBalance 5 10) := by
  norm_num [purchaseTxnBody, calculateFinalPrice, cexPlanC2, cexStC2, cexUserC2,
    cexTxC2, List.find?, List.any]

/-- C2 (amended): the duplicate check runs once, before the transaction is
started and before the user/balance are read, so a duplicate retry is
rejected as DuplicateTransaction (never InsufficientBalance) regardless of
the balance; there is no re-check inside the atomic unit — instead the
unique index on `transactions.idempotency_key` makes it impossible for two
transaction bodies with the same key to both commit. -/
theorem C2_precheck_unique_index_amended :
    (∀ (plans : List Plan) (now : ℤ) (uid pid key : String) (st : DBState) (plan : Plan),
        plans.find? (fun p => p.id = pid) = some plan →
        st.transactions.any (fun t => t.idempotency_key = key) = true →
        purchaseSubscription plans now uid pid key st
          = .error PurchaseError.duplicateTransaction)
    ∧ (∀ (plan : Plan) (now : ℤ) (uid key : String) (st st1 : DBState) (r : PurchaseResult),
        purchaseTxnBody plan now uid key st = .ok (st1, r) →
        ∀ (plan2 : Plan) (now2 : ℤ) (uid2 : String) (x : DBState × PurchaseResult),
          purchaseTxnBody plan2 now2 uid2 key st1 ≠ .ok x) := by
  constructor
  · intro plans now uid pid key st plan hp hdup
    unfold purchaseSubscription
    rw [hp]
    dsimp only
    rw [if_pos hdup]
  · intro plan now uid key st st1 r h
    exact txnBody_no_double_success plan now uid key st st1 r h

/-- C2 witness: the pre-check rejects a logged key before looking at the
balance, and after one committed body no second body with the same key
can commit. -/
theorem C2_precheck_unique_index_witness :
    purchaseSubscription [cexPlanC2] 0 "u" "p" "k" cexStC2
        = .error PurchaseError.duplicateTransaction
    ∧ purchaseTxnBody wPlan 5 "u" "k" wSt1 ≠ .ok (wSt1, wRes1) := by
  constructor
  · exact C2_precheck_unique_index_amended.1 [cexPlanC2] 0 "u" "p" "k" cexStC2 cexPlanC2
      (by rfl) (by rfl)
  · have h : purchaseTxnBody wPlan 1000 "u" "k" wStEmpty = .ok (wSt1, wRes1) := by
      norm_num [purchaseTxnBody, calculateFinalPrice, wPlan, wStEmpty, wUser, wSt1,
        wSub1, wTx1, wRes1, msPerDay, updateFirstUser, List.find?, List.any]
    exact C2_precheck_unique_index_amended.2 wPlan 1000 "u" "k" wStEmpty wSt1 wRes1 h
      wPlan 5 "u" (wSt1, wRes1)

/-- C3 counterexample: the admin balance route accepts a negative amount
for `set` and drives a balance below zero. -/
theorem C3_admin_set_negative_counterexample :
    adminAdjustBalance "u" AdminBalanceOp.set (-50) 5 cexStC3
        = some (⟨[⟨"u", -50, 5⟩], [], [], 1, 1⟩, 100, -50)
    ∧ ((-50 : ℚ) < 0) := by
  constructor
  · norm_num [adminAdjustBalance, cexStC3, cexUserC3, updateFirstUser, List.find?]
  · norm_num

/-- C3 (amended): starting from nonnegative balances, every sequence of
purchases and admin adjustments whose admin amounts are nonnegative keeps
every balance nonnegative; and a purchase whose final price exceeds the
balance (fresh key, known plan, existing user) fails with
InsufficientBalance carrying the current and required amounts and leaves
the store unchanged. -/
theorem C3_balance_nonneg_amended (plans : List Plan) (ops : List Op) (st : DBState)
    (h0 : ∀ u ∈ st.users, 0 ≤ u.vv_balance) (hops : adminAmountsOk ops) :
    (∀ u ∈ (runOps plans ops st).users, 0 ≤ u.vv_balance)
    ∧ (∀ (now : ℤ) (uid pid key : String) (plan : Plan) (user : User),
        plans.find? (fun p => p.id = pid) = some plan →
        st.transactions.any (fun t => t.idempotency_key = key) = false →
        st.users.find? (fun u => u._id = uid) = some user →
        user.vv_balance < calculateFinalPrice plan →
        purchaseSubscription plans now uid pid key st
            = .error (.insufficientBalance user.vv_balance (calculateFinalPrice plan))
          ∧ runOp plans st (Op.purchase now uid pid key) = st) := by
  refine ⟨runOps_preserves_nonneg plans ops st h0 hops, ?_⟩
  intro now uid pid key plan user hp hdup huser hlt
  exact purchase_insufficient plans now uid pid key st plan user hp hdup huser hlt

/-- C3 witness: with a 100-VV user, a subtract-150 adjustment clamps at
zero, and a 150-VV purchase is rejected as InsufficientBalance leaving the
store unchanged. -/
theorem C3_balance_nonneg_witness :
    purchaseSubscription [wPlanBig] 7 "u" "pb" "k9" cexStC3
        = .error (PurchaseError.insufficientBalance 100 150)
    ∧ runOp [wPlanBig] cexStC3 (Op.purchase 7 "u" "pb" "k9") = cexStC3 := by
  have h0 : ∀ u ∈ cexStC3.users, 0 ≤ u.vv_balance := by
    intro u hu
    simp [cexStC3, cexUserC3] at hu
    subst hu
    norm_num
  have hops : adminAmountsOk [Op.adminAdjust 0 "u" AdminBalanceOp.subtract 150] := by
    intro op hop
    rw [List.mem_singleton] at hop
    subst hop
    dsimp only
    norm_num
  have h := (C3_balance_nonneg_amended [wPlanBig]
      [Op.adminAdjust 0 "u" AdminBalanceOp.subtract 150] cexStC3 h0 hops).2
      7 "u" "pb" "k9" wPlanBig cexUserC3 (by rfl) (by rfl) (by rfl)
      (by norm_num [cexUserC3, calculateFinalPrice, wPlanBig])
  simpa [cexUserC3, calculateFinalPrice, wPlanBig] using h

/-- C1: if a purchaseSubscription call succeeds, a second sequential call
with the same idempotency key (any time, any user) fails with the
duplicate-transaction error while the first call's transaction record is
still in the log, and the pair produces exactly one balance debit and
exactly one entitlement creation (new purchase) or extension (renewal). -/
theorem C1_idempotent_pair (plans : List Plan) (now : ℤ)
    (uid pid key : String) (st st1 : DBState) (r : PurchaseResult)
    (h : purchaseSubscription plans now uid pid key st = .ok (st1, r)) :
    (∀ (now2 : ℤ) (uid2 : String),
        purchaseSubscription plans now2 uid2 pid key st1
          = .error PurchaseError.duplicateTransaction)
    ∧ (∃ tx ∈ st1.transactions, tx.idempotency_key = key)
    ∧ (∃ bal, getBalance st uid = some bal
        ∧ getBalance st1 uid = some (bal - r.finalPrice))
    ∧ ((r.isRenewal = true ∧ st1.subscriptions.length = st.subscriptions.length)
        ∨ (r.isRenewal = false ∧ st1.subscriptions.length = st.subscriptions.length + 1)) := by
  obtain ⟨plan, hp, hdup, hbody⟩ :=
    purchaseSubscription_ok_inv plans now uid pid key st st1 r h
  obtain ⟨user, huser, hbal, hfp, _, husers, htx, hkey, hlen⟩ :=
    purchaseTxnBody_ok_inv plan now uid key st st1 r hbody
  refine ⟨purchase_then_duplicate plans now uid pid key st st1 r h, ?_, ?_, hlen⟩
  · refine ⟨r.transaction, ?_, hkey⟩
    rw [htx]
    simp
  · refine ⟨user.vv_balance, ?_, ?_⟩
    · unfold getBalance
      rw [huser]
      rfl
    · unfold getBalance
      rw [husers, find?_updateFirstUser uid _ st.users user huser rfl]
      simp [hfp]

/-- C1 witness: buying `wPlan` from `wStEmpty` at time 1000 succeeds; the
retry with key "k" is rejected as DuplicateTransaction, the log holds the
record, the balance fell from 500 by the final price, and one record was
created. -/
theorem C1_idempotent_pair_witness :
    purchaseSubscription [wPlan] 2000 "u" "p" "k" wSt1
        = .error PurchaseError.duplicateTransaction
    ∧ getBalance wSt1 "u" = some (500 - wRes1.finalPrice)
    ∧ wSt1.subscriptions.length = wStEmpty.subscriptions.length + 1 := by
  have hok : purchaseSubscription [wPlan] 1000 "u" "p" "k" wStEmpty = .ok (wSt1, wRes1) := by
    norm_num [purchaseSubscription, purchaseTxnBody, calculateFinalPrice, wPlan,
      wStEmpty, wUser, wSt1, wSub1, wTx1, wRes1, msPerDay, updateFirstUser,
      List.find?, List.any]
  obtain ⟨hdup2, htx, ⟨bal, hb1, hb2⟩, hlen⟩ :=
    C1_idempotent_pair [wPlan] 1000 "u" "p" "k" wStEmpty wSt1 wRes1 hok
  have hbal : bal = 500 := by
    rw [show getBalance wStEmpty "u" = some (500 : ℚ) from rfl] at hb1
    injection hb1 with hb
    exact hb.symm
  subst hbal
  refine ⟨hdup2 2000 "u", hb2, ?_⟩
  rcases hlen with ⟨hren, _⟩ | ⟨_, hlen⟩
  · have : wRes1.isRenewal = false := rfl
    rw [this] at hren
    cases hren
  · exact hlen

/-- C4: a purchase by a user holding an active, unexpired subscription
(the renewal lookup finds it) succeeds as a renewal: the existing record
is updated in place (no record is added), its new expires_at is the old
expires_at plus the plan's duration in days, renewal_count grows by one,
total_paid_vv grows by exactly the final price, and is_renewal = true is
returned. -/
theorem C4_renewal_extends (plans : List Plan) (now : ℤ) (uid pid key : String)
    (st : DBState) (plan : Plan) (ex : Subscription) (user : User)
    (hnd : (subIds st.subscriptions).Nodup)
    (hp : plans.find? (fun p => p.id = pid) = some plan)
    (hdup : st.transactions.any (fun t => t.idempotency_key = key) = false)
    (huser : st.users.find? (fun u => u._id = uid) = some user)
    (hbal : ¬ user.vv_balance < calculateFinalPrice plan)
    (hex : st.subscriptions.find? (fun s =>
        s.user_id = uid ∧ s.status = SubStatus.active ∧ now < s.expires_at) = some ex) :
    ∃ st1 r, purchaseSubscription plans now uid pid key st = .ok (st1, r)
      ∧ r.isRenewal = true
      ∧ st1.subscriptions.length = st.subscriptions.length
      ∧ (∃ s1 ∈ st1.subscriptions, s1._id = ex._id
          ∧ s1.expires_at = ex.expires_at + (plan.days : ℤ) * msPerDay
          ∧ s1.renewal_count = ex.renewal_count + 1
          ∧ s1.total_paid_vv = ex.total_paid_vv + calculateFinalPrice plan) := by
  unfold purchaseSubscription
  rw [hp]
  dsimp only
  rw [if_neg (by simp [hdup])]
  unfold purchaseTxnBody
  rw [huser]
  dsimp only
  rw [if_neg hbal, hex]
  dsimp only
  rw [if_neg (by simp [hdup])]
  refine ⟨_, _, rfl, rfl, ?_, ?_⟩
  · exact length_updateFirstSub ex._id _ st.subscriptions
  · refine ⟨_, mem_updateFirstSub_self _ st.subscriptions ex
      (List.mem_of_find?_eq_some hex) hnd, rfl, rfl, rfl, rfl⟩

/-- C4 witness: renewing `wSubAct` (expiring 10 days in) with the 30-day
`wPlan` is reported as a renewal. -/
theorem C4_renewal_extends_witness :
    (purchaseSubscription [wPlan] 0 "u" "p" "k" wStRenew).map (fun x => x.2.isRenewal)
      = .ok true := by
  obtain ⟨st1, r, hok, hren, -, -⟩ :=
    C4_renewal_extends [wPlan] 0 "u" "p" "k" wStRenew wPlan wSubAct wUser
      (by decide) (by rfl) (by rfl) (by rfl) (by decide) (by rfl)
  rw [hok]
  simp [Except.map, hren]

/-- C10: when the user's only subscription is still marked active but its
expires_at is at or before the purchase time (stale, not yet swept), the
renewal lookup finds nothing: a brand-new record is created with
expires_at = now + duration and is_renewal = false, leaving two records,
the stale one still active. -/
theorem C10_stale_new_record (plans : List Plan) (now : ℤ) (uid pid key : String)
    (st : DBState) (plan : Plan) (user : User) (old : Subscription)
    (hp : plans.find? (fun p => p.id = pid) = some plan)
    (hdup : st.transactions.any (fun t => t.idempotency_key = key) = false)
    (huser : st.users.find? (fun u => u._id = uid) = some user)
    (hbal : ¬ user.vv_balance < calculateFinalPrice plan)
    (hsubs : st.subscriptions = [old])
    (hstale : old.expires_at ≤ now) :
    ∃ st1 r, purchaseSubscription plans now uid pid key st = .ok (st1, r)
      ∧ r.isRenewal = false
      ∧ st1.subscriptions = [old, r.subscription]
      ∧ r.subscription.expires_at = now + (plan.days : ℤ) * msPerDay
      ∧ r.subscription.status = SubStatus.active
      ∧ r.subscription.renewal_count = 0
      ∧ old ∈ st1.subscriptions := by
  have hfindnone : st.subscriptions.find? (fun s =>
      s.user_id = uid ∧ s.status = SubStatus.active ∧ now < s.expires_at) = none := by
    rw [hsubs]
    apply List.find?_eq_none.mpr
    intro x hx
    rw [List.mem_singleton] at hx
    subst hx
    simp only [decide_eq_true_eq, not_and]
    intro _ _
    exact not_lt.mpr hstale
  unfold purchaseSubscription
  rw [hp]
  dsimp only
  rw [if_neg (by simp [hdup])]
  unfold purchaseTxnBody
  rw [huser]
  dsimp only
  rw [if_neg hbal, hfindnone]
  dsimp only
  rw [if_neg (by simp [hdup])]
  refine ⟨_, _, rfl, rfl, ?_, rfl, rfl, rfl, ?_⟩
  · rw [hsubs]
    rfl
  · rw [hsubs]
    exact List.mem_append_left _ (List.mem_singleton.mpr rfl)

/-- C10 witness: buying `wPlan` over the stale `wSubStale` at the epoch
creates a second record and is not a renewal. -/
theorem C10_stale_new_record_witness :
    (purchaseSubscription [wPlan] 0 "u" "p" "k" wStStale).map
        (fun x => (x.2.isRenewal, x.1.subscriptions.length))
      = .ok (false, 2) := by
  obtain ⟨st1, r, hok, hren, hlist, -, -, -, -⟩ :=
    C10_stale_new_record [wPlan] 0 "u" "p" "k" wStStale wPlan wUser wSubStale
      (by rfl) (by rfl) (by rfl) (by decide) (by rfl) (by decide)
  rw [hok]
  simp [Except.map, hren, hlist]

/-- C6 counterexample: the warning pass's window is day-anchored, not the
next 24 hours of the run time — a run at time 0 warns (flags and
notifies) a subscription expiring 40 hours later, which is outside the
claimed 24-hour window. -/
theorem C6_day_window_counterexample :
    (sendExpiryWarnings 0 cexStC6).1.subscriptions.map (fun s => s.warning_sent) = [true]
    ∧ (sendExpiryWarnings 0 cexStC6).2 = [Event.warned 1 "u"]
    ∧ (0 : ℤ) + msPerDay < cexSubFar.expires_at := by
  refine ⟨by decide, by decide, by decide⟩

/-- C6 (amended): the set of subscriptions warned by one run of the
warning pass is exactly those with status active, warning_sent not yet
true, and expires_at inside the day-anchored window from the start of the
run's day to the end of the following day (a window up to 48 hours wide
that can also contain already-past instants); each warned subscription
gets warning_sent = true and warning_sent_at set to the run time, and the
emitted warning events are exactly those of the selected subscriptions
whose user document exists. -/
theorem C6_warning_window_amended (now : ℤ) (st : DBState)
    (hnd : (subIds st.subscriptions).Nodup) :
    (sendExpiryWarnings now st).1.subscriptions
      = st.subscriptions.map (fun s =>
          if s.status = SubStatus.active ∧ dayStart now ≤ s.expires_at ∧
             s.expires_at ≤ dayStart now + 2 * msPerDay - 1 ∧ s.warning_sent = false
          then markWarned now s else s)
    ∧ (sendExpiryWarnings now st).2
      = (st.subscriptions.filter (warnPredB now)).flatMap (warnEvents st.users) := by
  rw [sendExpiryWarnings_char now st hnd]
  refine ⟨?_, rfl⟩
  dsimp only
  apply List.map_congr_left
  intro s _
  simp only [warnPredB, warnWindowEnd, decide_eq_true_eq]

/-- C6 witness: the warning pass at time 0 on `cexStC6` emits exactly the
per-item events of the selected subscriptions. -/
theorem C6_warning_window_witness :
    (sendExpiryWarnings 0 cexStC6).2
      = (cexStC6.subscriptions.filter (warnPredB 0)).flatMap (warnEvents cexStC6.users) :=
  (C6_warning_window_amended 0 cexStC6 (by decide)).2

/-- C7: running the scheduled sweep (or the recovery sweep) twice in
immediate succession with the same clock value is a no-op the second
time — the second run changes no state and emits no event. -/
theorem C7_sweep_idempotent (now : ℤ) (st : DBState)
    (hnd : (subIds st.subscriptions).Nodup) :
    checkExpiries noFailures now (checkExpiries noFailures now st).1
        = ((checkExpiries noFailures now st).1, [])
    ∧ runRecoveryCheck noFailures now (runRecoveryCheck noFailures now st).1
        = ((runRecoveryCheck noFailures now st).1, []) := by
  constructor
  · have hnd1 : (subIds (st.subscriptions.map
        (fun s => if warnPredB now s then markWarned now s else s))).Nodup := by
      rw [subIds_map_ite _ _ (markWarned_id now)]
      exact hnd
    have hfst : (checkExpiries noFailures now st).1
        = { st with subscriptions := ((st.subscriptions.map
            (fun s => if warnPredB now s then markWarned now s else s)).map
            (fun s => if expiredPredB now s then markExpired now s else s)) } := by
      unfold checkExpiries
      dsimp only
      rw [sendExpiryWarnings_char now st hnd]
      dsimp only
      rw [handleExpired_noFail_char now _ hnd1]
    rw [hfst]
    apply checkExpiries_noop
    · apply List.filter_eq_nil_iff.mpr
      intro s' hs'
      dsimp only at hs'
      obtain ⟨t, ht, rfl⟩ := List.mem_map.mp hs'
      obtain ⟨s, hs, rfl⟩ := List.mem_map.mp ht
      simp [warnPredB_after_sweep now s]
    · apply List.filter_eq_nil_iff.mpr
      intro s' hs'
      dsimp only at hs'
      obtain ⟨t, ht, rfl⟩ := List.mem_map.mp hs'
      obtain ⟨s, hs, rfl⟩ := List.mem_map.mp ht
      simp [expiredPredB_after_sweep now s]
  · have hfst2 : (runRecoveryCheck noFailures now st).1
        = { st with subscriptions := ((st.subscriptions.map
            (fun s => if expiredPredB now s then markExpired now s else s)).map
            (fun s => if recoveryWarnPredB now s then markWarned now s else s)) } := by
      rw [runRecoveryCheck_noFail_char now st hnd]
    rw [hfst2]
    apply runRecoveryCheck_noop
    · apply List.filter_eq_nil_iff.mpr
      intro s' hs'
      dsimp only at hs'
      obtain ⟨t, ht, rfl⟩ := List.mem_map.mp hs'
      obtain ⟨s, hs, rfl⟩ := List.mem_map.mp ht
      simp [expiredPredB_after_recovery now s]
    · apply List.filter_eq_nil_iff.mpr
      intro s' hs'
      dsimp only at hs'
      obtain ⟨t, ht, rfl⟩ := List.mem_map.mp hs'
      obtain ⟨s, hs, rfl⟩ := List.mem_map.mp ht
      simp [recoveryWarnPredB_after_recovery now s]

/-- C7 witness: the sweeps on the concrete stale store are no-ops the
second time. -/
theorem C7_sweep_idempotent_witness :
    checkExpiries noFailures 259200000 (checkExpiries noFailures 259200000 wStSweep).1
        = ((checkExpiries noFailures 259200000 wStSweep).1, [])
    ∧ runRecoveryCheck noFailures 259200000
          (runRecoveryCheck noFailures 259200000 wStSweep).1
        = ((runRecoveryCheck noFailures 259200000 wStSweep).1, []) :=
  C7_sweep_idempotent 259200000 wStSweep (by decide)

/-- C8: one run of the recovery sweep transitions every still-active
subscription whose expiry is in the past (arbitrarily far) to status
expired with expired_at set to the sweep time, and emits exactly one
expired notification for it (its user existing). -/
theorem C8_recovery_expires_stale (now : ℤ) (st : DBState) (s : Subscription)
    (hnd : (subIds st.subscriptions).Nodup)
    (hmem : s ∈ st.subscriptions)
    (hactive : s.status = SubStatus.active)
    (hpast : s.expires_at < now)
    (hu : userExists st.users s.user_id = true) :
    markExpired now s ∈ (runRecoveryCheck noFailures now st).1.subscriptions
    ∧ (markExpired now s).status = SubStatus.expired
    ∧ (markExpired now s).expired_at = some now
    ∧ (runRecoveryCheck noFailures now st).2.count (Event.expired s._id s.user_id) = 1 := by
  have hsel : expiredPredB now s = true := by
    simp [expiredPredB, hactive, hpast]
  rw [runRecoveryCheck_noFail_char now st hnd]
  refine ⟨?_, rfl, rfl, ?_⟩
  · dsimp only
    have h1 : (fun x => if expiredPredB now x then markExpired now x else x) s
        = markExpired now s := by
      dsimp only
      rw [if_pos hsel]
    have h2 : (fun x => if recoveryWarnPredB now x then markWarned now x else x)
        (markExpired now s) = markExpired now s := by
      dsimp only
      rw [if_neg (by simp [recoveryWarnPredB_markExpired])]
    have hm1 := List.mem_map_of_mem
      (fun x => if expiredPredB now x then markExpired now x else x) hmem
    rw [h1] at hm1
    have hm2 := List.mem_map_of_mem
      (fun x => if recoveryWarnPredB now x then markWarned now x else x) hm1
    rw [h2] at hm2
    exact hm2
  · dsimp only
    rw [List.count_append,
      count_expired_flatMap_one st.users now st.subscriptions s hnd hmem hsel hu,
      count_warnEvents_expired]

/-- C8 witness: the recovery sweep three days after `wSubStale` expired
transitions it and emits exactly one expired notification. -/
theorem C8_recovery_expires_stale_witness :
    markExpired 259200000 wSubStale
        ∈ (runRecoveryCheck noFailures 259200000 wStSweep).1.subscriptions
    ∧ (markExpired 259200000 wSubStale).status = SubStatus.expired
    ∧ (markExpired 259200000 wSubStale).expired_at = some 259200000
    ∧ (runRecoveryCheck noFailures 259200000 wStSweep).2.count
        (Event.expired wSubStale._id wSubStale.user_id) = 1 :=
  C8_recovery_expires_stale 259200000 wStSweep wSubStale
    (by decide) (by decide) (by rfl) (by decide) (by rfl)

/-- C9: in the expiry pass, arbitrary failures of the role-revocation call
and of the expired-notification call never prevent a selected
subscription's transition to expired, and an update failure of any other
subscription does not prevent this one from being processed. -/
theorem C9_per_item_isolation (fo : FailureOracles) (now : ℤ) (st : DBState)
    (s : Subscription)
    (hnd : (subIds st.subscriptions).Nodup)
    (hmem : s ∈ st.subscriptions)
    (hactive : s.status = SubStatus.active)
    (hpast : s.expires_at < now)
    (hok : fo.updateFail s._id = false) :
    markExpired now s ∈ (handleExpiredSubscriptions fo now st).1.subscriptions := by
  have hsel : expiredPredB now s = true := by
    simp [expiredPredB, hactive, hpast]
  rw [handleExpiredSubscriptions_char fo now st hnd]
  dsimp only
  have h1 : (fun x => if expiredPredB now x && !fo.updateFail x._id
      then markExpired now x else x) s = markExpired now s := by
    dsimp only
    rw [if_pos (by simp [hsel, hok])]
  have hm := List.mem_map_of_mem
    (fun x => if expiredPredB now x && !fo.updateFail x._id then markExpired now x else x) hmem
  rw [h1] at hm
  exact hm

/-- C9 witness: with every role revocation and notification failing and
the status update of subscription 2 throwing, subscription 1 is still
transitioned to expired. -/
theorem C9_per_item_isolation_witness :
    markExpired 259200000 wSubStale
      ∈ (handleExpiredSubscriptions wFoFail 259200000 wStSweep9).1.subscriptions :=
  C9_per_item_isolation wFoFail 259200000 wStSweep9 wSubStale
    (by decide) (by decide) (by rfl) (by decide) (by rfl)

end Claims


end Virelia
